import Mathlib

/-!
Verification of the housing-analyzer scenario engine.

Shallow embedding of `src/calculator.ts` and of the scenario enumeration in
`src/App.tsx` (`allResults`).  TypeScript `number` is embedded as an element of
a linear ordered field (instantiated at `ℚ` for concrete evaluations and at `ℝ`
for the evaluator, whose annualized-ROI fields use real exponentiation
`Math.pow (1/analysisYears)`).  Display-only string fields that interpolate
numbers into text (`id`, `name` of a scenario) are omitted: the code gives them
no semantic role beyond chart labels, and the baseline scenario is recognizable
by its `sellXiamen = false` flag.
-/

namespace Housing

/-- `XiamenProperty` from `src/types.ts`. -/
structure XiamenProperty (α : Type) where
  marketValue : α
  monthlyRent : α
  exchangeRate : α
  sellingCostRate : α
deriving DecidableEq

/-- `SDPropertyOption` from `src/types.ts`.  The `rooms` count is used only as
a loop bound (`for rooms = 0; rooms <= property.rooms`), so it is embedded as a
natural number. -/
structure SDPropertyOption (α : Type) where
  type : String
  price : α
  monthlyRent : α
  rooms : ℕ
  appreciationRate : α
  hoaAndTax : α
deriving DecidableEq

/-- `LoanOption` from `src/types.ts`; `pmi?` is an optional field. -/
structure LoanOption (α : Type) where
  name : String
  type : String
  interestRate : α
  minDownPayment : α
  pmi : Option α
deriving DecidableEq

/-- `Borrower` from `src/types.ts`. -/
structure Borrower (α : Type) where
  name : String
  monthlyIncome : α
  loanOptions : List (LoanOption α)
deriving DecidableEq

/-- `InvestmentScenario` from `src/types.ts` (display-only `id`/`name`
omitted, see the header comment). -/
structure InvestmentScenario (α : Type) where
  sellXiamen : Bool
  sdProperty : Option (SDPropertyOption α)
  downPaymentPercent : α
  borrower : Option (Borrower α)
  roomsToRent : ℕ
  sdRentIfNotBuying : α
deriving DecidableEq

/-- `CalculationResult` from `src/types.ts`. -/
structure CalculationResult (α : Type) where
  scenario : InvestmentScenario α
  initialInvestment : α
  downPayment : α
  closingCosts : α
  remainingCash : α
  monthlyMortgage : α
  monthlyHOATax : α
  monthlyRentalIncome : α
  monthlyImputedRent : α
  monthlyTotalIncome : α
  monthlyCashflow : α
  monthlyEffectiveCashflow : α
  annualCashflow : α
  annualEffectiveCashflow : α
  cashflowAPY : α
  effectiveCashflowAPY : α
  year5PropertyValue : α
  year5Equity : α
  year5TotalReturn : α
  year5ROI : α
  year5AnnualizedROI : α
  dti : α
  mortgageToIncomeRatio : α
deriving DecidableEq

variable {α : Type}

/-- `calculateXiamenNetProceeds` (calculator.ts lines 50-54):
`grossUSD = marketValue / exchangeRate; netUSD = grossUSD * (1 - sellingCostRate)`. -/
def calculateXiamenNetProceeds [Field α] (xiamen : XiamenProperty α) : α :=
  let grossUSD := xiamen.marketValue / xiamen.exchangeRate
  let netUSD := grossUSD * (1 - xiamen.sellingCostRate)
  netUSD

/-- `getBestLoanOption` (calculator.ts lines 57-71): filter the borrower's
loan options to those with `downPaymentPercent >= minDownPayment`, return
`null` on an empty survivor list, otherwise `reduce` keeping the current
option only when its rate is strictly lower (JS `reduce` without seed starts
from the first element, so rate ties keep the earlier option). -/
def getBestLoanOption [LinearOrder α] (borrower : Borrower α)
    (downPaymentPercent : α) : Option (LoanOption α) :=
  let validOptions :=
    borrower.loanOptions.filter (fun opt => decide (downPaymentPercent ≥ opt.minDownPayment))
  match validOptions with
  | [] => none
  | h :: t =>
      some (t.foldl (fun best current =>
        if current.interestRate < best.interestRate then current else best) h)

/-- Embeds calculator.ts lines 129-140: the interest rate and monthly
insurance premium a liquidate-and-buy evaluation uses.  The code initializes
`interestRate = 0.065; pmi = 0` and overwrites them only when the scenario has
a borrower with a qualifying loan option; `if (loanOption.pmi && ...)` tests
JS truthiness, so a present-but-zero `pmi` (which is falsy) leaves `pmi = 0`,
which coincides with assigning it. -/
def scenarioLoanTerms [LinearOrderedField α] (s : InvestmentScenario α) : α × α :=
  match s.borrower with
  | none => (0.065, 0)
  | some b =>
      match getBestLoanOption b s.downPaymentPercent with
      | none => (0.065, 0)
      | some loanOption =>
          (loanOption.interestRate,
            match loanOption.pmi with
            | none => 0
            | some p => if p ≠ 0 ∧ s.downPaymentPercent < 0.2 then p else 0)

/-- `calculateMonthlyMortgage` (calculator.ts lines 13-28).  `Math.pow` on
reals is embedded as `Real.rpow`. -/
noncomputable def calculateMonthlyMortgage (principal annualRate : ℝ)
    (years : ℝ := 30) : ℝ :=
  let monthlyRate := annualRate / 12
  let numPayments := years * 12
  if monthlyRate = 0 then principal / numPayments
  else
    principal * (monthlyRate * (1 + monthlyRate) ^ numPayments) /
      ((1 + monthlyRate) ^ numPayments - 1)

/-- `calculateRemainingBalance` (calculator.ts lines 31-47). -/
noncomputable def calculateRemainingBalance (principal annualRate years paymentsMade : ℝ) : ℝ :=
  let monthlyRate := annualRate / 12
  let numPayments := years * 12
  if monthlyRate = 0 then principal - principal / numPayments * paymentsMade
  else
    principal * ((1 + monthlyRate) ^ numPayments - (1 + monthlyRate) ^ paymentsMade) /
      ((1 + monthlyRate) ^ numPayments - 1)

/-- Branch A of `calculateScenario` (calculator.ts lines 84-119): hold the
Xiamen property and rent in San Diego. -/
noncomputable def holdAndRentResult (s : InvestmentScenario ℝ)
    (xiamen : XiamenProperty ℝ) (analysisYears : ℝ) : CalculationResult ℝ :=
  let xiamenMonthlyRentUSD := xiamen.monthlyRent / xiamen.exchangeRate
  let xiamenValueUSD := xiamen.marketValue / xiamen.exchangeRate
  let sdRent := s.sdRentIfNotBuying
  let monthlyCashflow := xiamenMonthlyRentUSD - sdRent
  let annualCashflow := monthlyCashflow * 12
  let year5Value := xiamenValueUSD
  let totalCashflow5Y := annualCashflow * analysisYears
  let year5TotalReturn := year5Value + totalCashflow5Y - xiamenValueUSD
  { scenario := s
    initialInvestment := xiamenValueUSD
    downPayment := 0
    closingCosts := 0
    remainingCash := 0
    monthlyMortgage := 0
    monthlyHOATax := 0
    monthlyRentalIncome := xiamenMonthlyRentUSD
    monthlyImputedRent := 0
    monthlyTotalIncome := xiamenMonthlyRentUSD
    monthlyCashflow := monthlyCashflow
    monthlyEffectiveCashflow := monthlyCashflow
    annualCashflow := annualCashflow
    annualEffectiveCashflow := annualCashflow
    cashflowAPY := annualCashflow / xiamenValueUSD * 100
    effectiveCashflowAPY := annualCashflow / xiamenValueUSD * 100
    year5PropertyValue := year5Value
    year5Equity := year5Value
    year5TotalReturn := year5TotalReturn
    year5ROI := year5TotalReturn / xiamenValueUSD * 100
    year5AnnualizedROI := ((1 + year5TotalReturn / xiamenValueUSD) ^ (1 / analysisYears) - 1) * 100
    dti := 0
    mortgageToIncomeRatio := 0 }

/-- Branch B of `calculateScenario` (calculator.ts lines 121-212): sell the
Xiamen property and buy the chosen San Diego property.  The `monthlyIncome`
fallback embeds `scenario.borrower?.monthlyIncome || 5000`: JS `||` also
replaces a present-but-zero (falsy) income by 5000. -/
noncomputable def liquidateAndBuyResult (s : InvestmentScenario ℝ)
    (property : SDPropertyOption ℝ) (xiamen : XiamenProperty ℝ)
    (analysisYears : ℝ) : CalculationResult ℝ :=
  let xiamenNetProceeds := calculateXiamenNetProceeds xiamen
  let downPaymentPercent := s.downPaymentPercent
  let downPayment := property.price * downPaymentPercent
  let closingCosts := property.price * 0.03
  let loanAmount := property.price - downPayment
  let interestRate := (scenarioLoanTerms s).1
  let pmi := (scenarioLoanTerms s).2
  let totalInitialCost := downPayment + closingCosts
  let remainingCash := xiamenNetProceeds - totalInitialCost
  let monthlyMortgage := calculateMonthlyMortgage loanAmount interestRate
  let monthlyHOATax := property.hoaAndTax
  let monthlyRentalIncome := property.monthlyRent * (s.roomsToRent : ℝ)
  let monthlyImputedRent := s.sdRentIfNotBuying
  let monthlyTotalIncome := monthlyRentalIncome + monthlyImputedRent
  let totalMonthlyPayment := monthlyMortgage + monthlyHOATax + pmi
  let monthlyCashflow := monthlyRentalIncome - totalMonthlyPayment
  let monthlyEffectiveCashflow := monthlyTotalIncome - totalMonthlyPayment
  let annualCashflow := monthlyCashflow * 12
  let annualEffectiveCashflow := monthlyEffectiveCashflow * 12
  let cashflowAPY := annualCashflow / totalInitialCost * 100
  let effectiveCashflowAPY := annualEffectiveCashflow / totalInitialCost * 100
  let year5PropertyValue := property.price * (1 + property.appreciationRate) ^ analysisYears
  let year5LoanBalance := calculateRemainingBalance loanAmount interestRate 30 (analysisYears * 12)
  let year5Equity := year5PropertyValue - year5LoanBalance
  let totalEffectiveCashflow5Y := annualEffectiveCashflow * analysisYears
  let year5NetWorth := year5Equity + remainingCash + totalEffectiveCashflow5Y
  let year5TotalReturn := year5NetWorth - xiamenNetProceeds
  let monthlyIncome : ℝ :=
    match s.borrower with
    | none => 5000
    | some b => if b.monthlyIncome = 0 then 5000 else b.monthlyIncome
  { scenario := s
    initialInvestment := xiamenNetProceeds
    downPayment := downPayment
    closingCosts := closingCosts
    remainingCash := remainingCash
    monthlyMortgage := monthlyMortgage
    monthlyHOATax := monthlyHOATax
    monthlyRentalIncome := monthlyRentalIncome
    monthlyImputedRent := monthlyImputedRent
    monthlyTotalIncome := monthlyTotalIncome
    monthlyCashflow := monthlyCashflow
    monthlyEffectiveCashflow := monthlyEffectiveCashflow
    annualCashflow := annualCashflow
    annualEffectiveCashflow := annualEffectiveCashflow
    cashflowAPY := cashflowAPY
    effectiveCashflowAPY := effectiveCashflowAPY
    year5PropertyValue := year5PropertyValue
    year5Equity := year5Equity
    year5TotalReturn := year5TotalReturn
    year5ROI := year5TotalReturn / xiamenNetProceeds * 100
    year5AnnualizedROI := ((year5NetWorth / xiamenNetProceeds) ^ (1 / analysisYears) - 1) * 100
    dti := totalMonthlyPayment / monthlyIncome * 100
    mortgageToIncomeRatio := monthlyMortgage / monthlyIncome * 100 }

/-- `calculateScenario` (calculator.ts lines 74-213).  The guard
`if (!scenario.sellXiamen || !scenario.sdProperty)` selects Branch A whenever
the sell flag is false or no San Diego property is attached (JS null is
falsy); otherwise Branch B runs with the non-null property. -/
noncomputable def calculateScenario (s : InvestmentScenario ℝ)
    (xiamen : XiamenProperty ℝ) (analysisYears : ℝ := 5) : CalculationResult ℝ :=
  match s.sellXiamen, s.sdProperty with
  | false, _ => holdAndRentResult s xiamen analysisYears
  | true, none => holdAndRentResult s xiamen analysisYears
  | true, some property => liquidateAndBuyResult s property xiamen analysisYears

/-- The fixed down-payment grid of `App.tsx` `allResults` (line 108):
`[0, 0.05, 0.1, 0.15, 0.2, 0.25, 0.3, 0.35, 0.4, 0.5, 0.6, 0.7, 0.8]`. -/
def dpOptions [LinearOrderedField α] : List α :=
  [0, 0.05, 0.1, 0.15, 0.2, 0.25, 0.3, 0.35, 0.4, 0.5, 0.6, 0.7, 0.8]

/-- The baseline scenario pushed first by `App.tsx` `allResults`
(lines 95-105): keep Xiamen, rent in San Diego. -/
def baselineScenario [Zero α] (sdRentIfNotBuying : α) : InvestmentScenario α :=
  { sellXiamen := false
    sdProperty := none
    downPaymentPercent := 0
    borrower := none
    roomsToRent := 0
    sdRentIfNotBuying := sdRentIfNotBuying }

/-- One liquidate-and-buy scenario built inside the `allResults` loops
(App.tsx lines 123-132). -/
def comboScenario (property : SDPropertyOption α) (borrower : Borrower α)
    (dp : α) (rooms : ℕ) (sdRentIfNotBuying : α) : InvestmentScenario α :=
  { sellXiamen := true
    sdProperty := some property
    downPaymentPercent := dp
    borrower := some borrower
    roomsToRent := rooms
    sdRentIfNotBuying := sdRentIfNotBuying }

/-- The scenarios one `(property, borrower, dp)` iteration of the `allResults`
loops evaluates (App.tsx lines 113-135): skip the whole room loop when no loan
option qualifies (`continue`), skip it when the down payment plus the 3%
closing costs exceed the Xiamen net proceeds (`continue`), otherwise one
scenario per `rooms = 0 .. property.rooms`. -/
def comboList [LinearOrderedField α] (property : SDPropertyOption α)
    (borrower : Borrower α) (dp : α) (sdRentIfNotBuying : α)
    (xiamenNetProceeds : α) : List (InvestmentScenario α) :=
  match getBestLoanOption borrower dp with
  | none => []
  | some _ =>
      if property.price * dp + property.price * 0.03 > xiamenNetProceeds then []
      else
        (List.range (property.rooms + 1)).map
          (fun rooms => comboScenario property borrower dp rooms sdRentIfNotBuying)

/-- The full scenario list that `App.tsx` `allResults` (lines 91-140)
evaluates, in evaluation order: the baseline first, then the triple loop over
candidate properties x borrowers x the down-payment grid, with the two skips
of `comboList`.  The App pushes `calculateScenario` of each of these, so
`allResults` is the map of the evaluator over this list. -/
def appScenarios [LinearOrderedField α] (xiamen : XiamenProperty α)
    (sdOptions : List (SDPropertyOption α)) (borrowers : List (Borrower α))
    (sdRentIfNotBuying : α) : List (InvestmentScenario α) :=
  let xiamenNetProceeds := calculateXiamenNetProceeds xiamen
  baselineScenario sdRentIfNotBuying ::
    sdOptions.flatMap (fun property =>
      borrowers.flatMap (fun borrower =>
        dpOptions.flatMap (fun dp =>
          comboList property borrower dp sdRentIfNotBuying xiamenNetProceeds)))

/-- The down-payment grid of the legacy generator `generateScenarios`
(calculator.ts line 237). -/
def downPaymentOptions [LinearOrderedField α] : List α := [0.2, 0.25, 0.3, 0.35, 0.5]

/-- `generateScenarios` (calculator.ts lines 216-265): the exported but
UI-unused legacy generator.  It uses the five-element grid above and prunes
only on loan qualification; it has no affordability gate. -/
def generateScenarios [LinearOrderedField α] (sdOptions : List (SDPropertyOption α))
    (borrowers : List (Borrower α)) (sdRentIfNotBuying : α) :
    List (InvestmentScenario α) :=
  baselineScenario sdRentIfNotBuying ::
    sdOptions.flatMap (fun property =>
      borrowers.flatMap (fun borrower =>
        downPaymentOptions.flatMap (fun dp =>
          match getBestLoanOption borrower dp with
          | none => []
          | some _ =>
              (List.range (property.rooms + 1)).map
                (fun rooms => comboScenario property borrower dp rooms sdRentIfNotBuying))))

/-- The domination rule of `findParetoFrontier` (calculator.ts lines 287-289):
`other` dominates `result` iff it is at least as good on both objectives
(`cashflowAPY`, `year5AnnualizedROI`) and strictly better on one. -/
def Dominates [LinearOrder α] (other result : CalculationResult α) : Prop :=
  other.cashflowAPY ≥ result.cashflowAPY ∧
    other.year5AnnualizedROI ≥ result.year5AnnualizedROI ∧
    (other.cashflowAPY > result.cashflowAPY ∨
      other.year5AnnualizedROI > result.year5AnnualizedROI)

instance [LinearOrder α] (other result : CalculationResult α) :
    Decidable (Dominates other result) := by
  unfold Dominates; infer_instance

/-- The sort key of `findParetoFrontier`'s final
`frontier.sort((a, b) => a.cashflowAPY - b.cashflowAPY)` (calculator.ts
line 300): ascending by `cashflowAPY`, ties kept stable (JS `Array.sort` is
stable). -/
def byCashflowAPY [LinearOrder α] (a b : CalculationResult α) : Prop :=
  a.cashflowAPY ≤ b.cashflowAPY

instance [LinearOrder α] (a b : CalculationResult α) : Decidable (byCashflowAPY a b) := by
  unfold byCashflowAPY; infer_instance

instance [LinearOrder α] : IsTotal (CalculationResult α) byCashflowAPY :=
  ⟨fun a b => le_total a.cashflowAPY b.cashflowAPY⟩

instance [LinearOrder α] : IsTrans (CalculationResult α) byCashflowAPY :=
  ⟨fun _ _ _ hab hbc => le_trans hab hbc⟩

/-- `findParetoFrontier` (calculator.ts lines 277-301): keep every result no
other element of the input dominates (the inner loop skips the reference-equal
element, embedded as the `other ≠ result` conjunct; domination is irreflexive,
so the skip never changes the outcome), then sort ascending by `cashflowAPY`.
The function consumes the raw result list: it takes no objective extractors
and no feasibility predicate, and it never reads `dti` or
`effectiveCashflowAPY`. -/
def findParetoFrontier [LinearOrder α] (results : List (CalculationResult α)) :
    List (CalculationResult α) :=
  let frontier := results.filter (fun result =>
    !(results.any (fun other => decide (other ≠ result ∧ Dominates other result))))
  frontier.insertionSort byCashflowAPY

/-- Domination over the spec's claimed default objectives
(`effectiveCashflowAPY`, `year5AnnualizedROI`).  This definition follows the
SPEC's words (section 4.6), not the source, and exists only to compare the
claimed selector with the implemented one. -/
def EffDominates [LinearOrder α] (other result : CalculationResult α) : Prop :=
  other.effectiveCashflowAPY ≥ result.effectiveCashflowAPY ∧
    other.year5AnnualizedROI ≥ result.year5AnnualizedROI ∧
    (other.effectiveCashflowAPY > result.effectiveCashflowAPY ∨
      other.year5AnnualizedROI > result.year5AnnualizedROI)

instance [LinearOrder α] (other result : CalculationResult α) :
    Decidable (EffDominates other result) := by
  unfold EffDominates; infer_instance

/-- Ascending order by the spec's claimed first objective. -/
def byEffectiveAPY [LinearOrder α] (a b : CalculationResult α) : Prop :=
  a.effectiveCashflowAPY ≤ b.effectiveCashflowAPY

instance [LinearOrder α] (a b : CalculationResult α) : Decidable (byEffectiveAPY a b) := by
  unfold byEffectiveAPY; infer_instance

/-- Modelled from the spec (section 4.6), for comparison only: the claimed
Pareto selector with the claimed defaults — restrict to results with
debt-to-income strictly below 43, drop results dominated over
(`effectiveCashflowAPY`, `year5AnnualizedROI`), and order ascending by the
first objective. -/
def specParetoSelector [LinearOrderedRing α] (results : List (CalculationResult α)) :
    List (CalculationResult α) :=
  let feasible := results.filter (fun r => decide (r.dti < 43))
  let frontier := feasible.filter (fun r =>
    !(feasible.any (fun other => decide (EffDominates other r))))
  frontier.insertionSort byEffectiveAPY

/-- A result record with chosen objective and risk fields and every other
numeric field zero; used only as concrete test data. -/
def testResult [LinearOrderedRing α] (c e roi d : α) : CalculationResult α :=
  { scenario := baselineScenario 0
    initialInvestment := 0
    downPayment := 0
    closingCosts := 0
    remainingCash := 0
    monthlyMortgage := 0
    monthlyHOATax := 0
    monthlyRentalIncome := 0
    monthlyImputedRent := 0
    monthlyTotalIncome := 0
    monthlyCashflow := 0
    monthlyEffectiveCashflow := 0
    annualCashflow := 0
    annualEffectiveCashflow := 0
    cashflowAPY := c
    effectiveCashflowAPY := e
    year5PropertyValue := 0
    year5Equity := 0
    year5TotalReturn := 0
    year5ROI := 0
    year5AnnualizedROI := roi
    dti := d
    mortgageToIncomeRatio := 0 }

/-- Test fixture: a result with actual-cashflow APY 1, effective APY 10,
annualized ROI 5, DTI 50. -/
def tr1 : CalculationResult ℤ := testResult 1 10 5 50

/-- Test fixture: like `tr1` but with actual-cashflow APY 2, so it dominates
`tr1` on the implemented objectives and ties it on the claimed ones. -/
def tr2 : CalculationResult ℤ := testResult 2 10 5 50

/-- Test fixture: a source property worth 1000 in its own currency at
exchange rate 1 with no selling costs, so its net proceeds are exactly 1000. -/
def x0 : XiamenProperty ℚ :=
  { marketValue := 1000, monthlyRent := 10, exchangeRate := 1, sellingCostRate := 0 }

/-- Test fixture: a zero-minimum-down loan product. -/
def va0 : LoanOption ℚ :=
  { name := "VA Loan", type := "va", interestRate := 0.055, minDownPayment := 0, pmi := some 0 }

/-- Test fixture: a borrower holding only `va0`. -/
def b0 : Borrower ℚ :=
  { name := "B", monthlyIncome := 5000, loanOptions := [va0] }

/-- Test fixture: a candidate property priced far above `x0`'s net proceeds,
so high down-payment fractions fail the affordability gate. -/
def p0 : SDPropertyOption ℚ :=
  { type := "1B1B", price := 10000, monthlyRent := 1800, rooms := 1,
    appreciationRate := 0.02, hoaAndTax := 750 }

/-- Test fixture: real-valued source property for evaluator witnesses. -/
def x1 : XiamenProperty ℝ :=
  { marketValue := 2800000, monthlyRent := 2800, exchangeRate := 7, sellingCostRate := 0.036 }

/-- Test fixture: real-valued candidate property. -/
def p1 : SDPropertyOption ℝ :=
  { type := "2B2B", price := 550000, monthlyRent := 1200, rooms := 2,
    appreciationRate := 0.03, hoaAndTax := 850 }

/-- Test fixture: real-valued loan product with a positive insurance premium. -/
def conv1 : LoanOption ℝ :=
  { name := "Conventional", type := "conventional", interestRate := 0.065,
    minDownPayment := 0.2, pmi := some 150 }

/-- Test fixture: real-valued borrower holding only `conv1`. -/
def b1 : Borrower ℝ :=
  { name := "G", monthlyIncome := 8000, loanOptions := [conv1] }

/-- Test fixture: a liquidate-and-buy scenario over the real-valued data. -/
def s1 : InvestmentScenario ℝ := comboScenario p1 b1 0.25 2 850

/-- Test fixture: a scenario with the sell flag raised but no property
attached, violating the documented shape invariant. -/
def sBad : InvestmentScenario ℝ :=
  { sellXiamen := true, sdProperty := none, downPaymentPercent := 0.25,
    borrower := some b1, roomsToRent := 2, sdRentIfNotBuying := 850 }

/-- Test fixture: integer-rate conventional product, rate 65, minimum down 2. -/
def convZ : LoanOption ℤ :=
  { name := "conv", type := "conventional", interestRate := 65,
    minDownPayment := 2, pmi := some 150 }

/-- Test fixture: integer-rate VA product, rate 55, minimum down 0. -/
def vaZ : LoanOption ℤ :=
  { name := "va", type := "va", interestRate := 55, minDownPayment := 0, pmi := none }

/-- Test fixture: integer-rate borrower for loan-selection checks. -/
def b2 : Borrower ℤ :=
  { name := "Z", monthlyIncome := 6000, loanOptions := [convZ, vaZ] }

lemma dominates_irrefl [LinearOrder α] (r : CalculationResult α) : ¬ Dominates r r := by
  rintro ⟨-, -, h | h⟩ <;> exact lt_irrefl _ h

lemma dominates_trans [LinearOrder α] {a b c : CalculationResult α}
    (hab : Dominates a b) (hbc : Dominates b c) : Dominates a c := by
  obtain ⟨h1, h2, h3⟩ := hab
  obtain ⟨g1, g2, g3⟩ := hbc
  refine ⟨le_trans g1 h1, le_trans g2 h2, ?_⟩
  rcases h3 with h | h
  · exact Or.inl (lt_of_le_of_lt g1 h)
  · exact Or.inr (lt_of_le_of_lt g2 h)

lemma dominates_ne [LinearOrder α] {o r : CalculationResult α} (h : Dominates o r) :
    o ≠ r := by
  rintro rfl; exact dominates_irrefl o h

/-- Membership in the returned frontier is exactly membership in the input
with no dominating input element. -/
lemma mem_findParetoFrontier_iff [LinearOrder α] {results : List (CalculationResult α)}
    {r : CalculationResult α} :
    r ∈ findParetoFrontier results ↔
      r ∈ results ∧ ¬ ∃ o ∈ results, Dominates o r := by
  unfold findParetoFrontier
  rw [(List.perm_insertionSort byCashflowAPY _).mem_iff, List.mem_filter]
  simp only [Bool.not_eq_true', List.any_eq_false, decide_eq_true_eq]
  constructor
  · rintro ⟨hmem, hfilter⟩
    refine ⟨hmem, ?_⟩
    rintro ⟨o, ho, hdom⟩
    exact hfilter o ho ⟨dominates_ne hdom, hdom⟩
  · rintro ⟨hmem, hnodom⟩
    exact ⟨hmem, fun o ho h => hnodom ⟨o, ho, h.2⟩⟩

lemma sorted_findParetoFrontier [LinearOrder α] (results : List (CalculationResult α)) :
    (findParetoFrontier results).Sorted byCashflowAPY :=
  List.sorted_insertionSort byCashflowAPY _

lemma countP_lt_countP {β : Type} (p q : β → Bool) {l : List β}
    (hpq : ∀ x ∈ l, p x = true → q x = true) {x : β} (hx : x ∈ l)
    (hqx : q x = true) (hpx : p x = false) : l.countP p < l.countP q := by
  induction l with
  | nil => cases hx
  | cons a l ih =>
      rcases List.mem_cons.mp hx with h | hx
      · subst h
        rw [List.countP_cons, List.countP_cons, hpx, hqx]
        have hle : l.countP p ≤ l.countP q :=
          List.countP_mono_left (fun y hy => hpq y (List.mem_cons_of_mem _ hy))
        simp only [Bool.false_eq_true, if_false, if_true]
        omega
      · rw [List.countP_cons, List.countP_cons]
        have h1 : l.countP p < l.countP q :=
          ih (fun y hy => hpq y (List.mem_cons_of_mem _ hy)) hx
        have h2 : (if p a = true then 1 else 0) ≤ (if q a = true then 1 else 0) := by
          by_cases hpa : p a = true
          · rw [if_pos hpa, if_pos (hpq a (List.mem_cons_self a l) hpa)]
          · rw [if_neg hpa]
            omega
        omega

/-- Every dominated element of a list has a dominating element that is itself
undominated within the list (strong induction on the number of dominators). -/
lemma exists_undominated_dominator [LinearOrder α] :
    ∀ (n : ℕ) (results : List (CalculationResult α)) (r : CalculationResult α),
      results.countP (fun o => decide (Dominates o r)) ≤ n →
      (∃ o ∈ results, Dominates o r) →
      ∃ f ∈ results, (¬ ∃ o ∈ results, Dominates o f) ∧ Dominates f r := by
  intro n
  induction n with
  | zero =>
      rintro results r hlen ⟨o, ho, hdom⟩
      exfalso
      have : 0 < results.countP (fun o => decide (Dominates o r)) := by
        rw [List.countP_pos_iff]
        exact ⟨o, ho, by simpa using hdom⟩
      omega
  | succ n ih =>
      rintro results r hlen ⟨o, ho, hdom⟩
      by_cases h : ∃ o2 ∈ results, Dominates o2 o
      · have hlt : results.countP (fun x => decide (Dominates x o)) <
            results.countP (fun x => decide (Dominates x r)) := by
          refine countP_lt_countP _ _ (fun x _ hx => ?_) ho ?_ ?_
          · simp only [decide_eq_true_eq] at hx ⊢
            exact dominates_trans hx hdom
          · simpa using hdom
          · simpa using dominates_irrefl o
        obtain ⟨f, hf, hfnd, hfdom⟩ := ih results o (by omega) h
        exact ⟨f, hf, hfnd, dominates_trans hfdom hdom⟩
      · exact ⟨o, ho, h, hdom⟩

lemma mem_comboList_iff [LinearOrderedField α] {property : SDPropertyOption α}
    {borrower : Borrower α} {dp rent proceeds : α} {s : InvestmentScenario α} :
    s ∈ comboList property borrower dp rent proceeds ↔
      (getBestLoanOption borrower dp).isSome = true ∧
      property.price * dp + property.price * 0.03 ≤ proceeds ∧
      ∃ rooms ≤ property.rooms, s = comboScenario property borrower dp rooms rent := by
  unfold comboList
  rcases h : getBestLoanOption borrower dp with - | lo
  · simp [h]
  · dsimp only
    by_cases hgate : property.price * dp + property.price * 0.03 > proceeds
    · rw [if_pos hgate]
      simp only [List.not_mem_nil, false_iff]
      rintro ⟨-, hle, -⟩
      exact absurd hle (not_le.mpr hgate)
    · rw [if_neg hgate]
      simp only [List.mem_map, List.mem_range, Option.isSome_some, true_and,
        Nat.lt_succ_iff]
      constructor
      · rintro ⟨rooms, hr, rfl⟩
        exact ⟨not_lt.mp hgate, rooms, hr, rfl⟩
      · rintro ⟨-, rooms, hr, rfl⟩
        exact ⟨rooms, hr, rfl⟩

lemma mem_appScenarios_iff [LinearOrderedField α] {xiamen : XiamenProperty α}
    {sdOptions : List (SDPropertyOption α)} {borrowers : List (Borrower α)}
    {rent : α} {s : InvestmentScenario α} :
    s ∈ appScenarios xiamen sdOptions borrowers rent ↔
      s = baselineScenario rent ∨
      ∃ property ∈ sdOptions, ∃ borrower ∈ borrowers, ∃ dp ∈ dpOptions,
        (getBestLoanOption borrower dp).isSome = true ∧
        property.price * dp + property.price * 0.03 ≤ calculateXiamenNetProceeds xiamen ∧
        ∃ rooms ≤ property.rooms, s = comboScenario property borrower dp rooms rent := by
  unfold appScenarios
  simp only [List.mem_cons, List.mem_flatMap, mem_comboList_iff]

lemma comboList_sellXiamen [LinearOrderedField α] {property : SDPropertyOption α}
    {borrower : Borrower α} {dp rent proceeds : α} {s : InvestmentScenario α}
    (h : s ∈ comboList property borrower dp rent proceeds) : s.sellXiamen = true := by
  obtain ⟨-, -, rooms, -, rfl⟩ := mem_comboList_iff.mp h
  rfl

/-- The JS `reduce` in `getBestLoanOption` returns the first element of the
list whose rate is minimal: it can be flanked by a prefix of strictly worse
rates and a suffix of no-better rates. -/
lemma foldl_min_first [LinearOrder α] :
    ∀ (t : List (LoanOption α)) (h res : LoanOption α),
      res = t.foldl (fun best current =>
        if current.interestRate < best.interestRate then current else best) h →
      ∃ l1 l2, h :: t = l1 ++ res :: l2 ∧
        (∀ o ∈ l1, res.interestRate < o.interestRate) ∧
        (∀ o ∈ l2, res.interestRate ≤ o.interestRate) := by
  intro t
  induction t with
  | nil =>
      intro h res hres
      exact ⟨[], [], by rw [hres]; rfl, by simp, by simp⟩
  | cons c t ih =>
      intro h res hres
      rw [List.foldl_cons] at hres
      obtain ⟨l1, l2, hdec, h1, h2⟩ :=
        ih (if c.interestRate < h.interestRate then c else h) res hres
      have hmin : ∀ o ∈ (if c.interestRate < h.interestRate then c else h) :: t,
          res.interestRate ≤ o.interestRate := by
        intro o ho
        rw [hdec] at ho
        rcases List.mem_append.mp ho with hm | hm
        · exact le_of_lt (h1 o hm)
        · rcases List.mem_cons.mp hm with rfl | hm
          · exact le_refl _
          · exact h2 o hm
      by_cases hc : c.interestRate < h.interestRate
      · rw [if_pos hc] at hdec hmin
        have hresh : res.interestRate < h.interestRate :=
          lt_of_le_of_lt (hmin c (List.mem_cons_self c t)) hc
        refine ⟨h :: l1, l2, ?_, ?_, h2⟩
        · rw [List.cons_append, ← hdec]
        · intro o ho
          rcases List.mem_cons.mp ho with rfl | ho
          · exact hresh
          · exact h1 o ho
      · rw [if_neg hc] at hdec hmin
        have hhc : h.interestRate ≤ c.interestRate := le_of_not_lt hc
        match l1, h1, hdec with
        | [], h1, hdec =>
            rw [List.nil_append] at hdec
            injection hdec with hres2 hl2
            refine ⟨[], c :: t, by rw [← hres2]; rfl, by simp, ?_⟩
            intro o ho
            rcases List.mem_cons.mp ho with rfl | ho
            · rw [← hres2]; exact hhc
            · rw [hl2] at ho; exact h2 o ho
        | x :: l1, h1, hdec =>
            rw [List.cons_append] at hdec
            injection hdec with hx ht
            have hresh : res.interestRate < h.interestRate := by
              have := h1 x (List.mem_cons_self x l1)
              rwa [← hx] at this
            refine ⟨h :: c :: l1, l2, ?_, ?_, h2⟩
            · rw [ht]; simp
            · intro o ho
              rcases List.mem_cons.mp ho with rfl | ho
              · exact hresh
              · rcases List.mem_cons.mp ho with rfl | ho
                · exact lt_of_lt_of_le hresh hhc
                · exact h1 o (List.mem_cons_of_mem _ ho)

section Claims

/-- C1 (counterexample).  On the two-element input `[tr1, tr2]` the
implemented selector `findParetoFrontier` disagrees with `specParetoSelector`,
the selector the claim describes (filter debt-to-income strictly below 43,
objectives `effectiveCashflowAPY` and `year5AnnualizedROI`, ascending by the
first): both inputs have DTI 50, so the claimed selector returns nothing,
while the implemented one returns `[tr2]`. -/
theorem c1_counterexample : findParetoFrontier [tr1, tr2] ≠ specParetoSelector [tr1, tr2] := by
  decide

/-- C1 (amended).  The Pareto selector takes only the result collection: its
objectives are hard-coded to `cashflowAPY` (not the effective APY) and
`year5AnnualizedROI`, it applies no feasibility predicate (it never reads
`dti`), and it returns exactly the subset of the raw input that no input
element dominates, ordered ascending by `cashflowAPY`. -/
theorem c1_pareto_selector [LinearOrder α] (results : List (CalculationResult α)) :
    (∀ r, r ∈ findParetoFrontier results ↔
      r ∈ results ∧ ¬ ∃ other ∈ results, Dominates other r) ∧
    (findParetoFrontier results).Sorted byCashflowAPY :=
  ⟨fun _ => mem_findParetoFrontier_iff, sorted_findParetoFrontier results⟩

/-- C1 witness: the amended characterization applied to the concrete input
`[tr1, tr2]` puts `tr2` in the frontier. -/
theorem c1_pareto_selector_witness : tr2 ∈ findParetoFrontier [tr1, tr2] :=
  ((c1_pareto_selector [tr1, tr2]).1 tr2).mpr (by decide)

/-- C2 (confirmed).  Soundness and completeness of `findParetoFrontier` with
respect to the domination rule: no returned result is dominated by any element
of the input set, and every input element that is not returned is dominated by
some returned frontier member. -/
theorem c2_pareto_sound_complete [LinearOrder α] (results : List (CalculationResult α)) :
    (∀ r ∈ findParetoFrontier results, ¬ ∃ other ∈ results, Dominates other r) ∧
    (∀ r ∈ results, r ∉ findParetoFrontier results →
      ∃ f ∈ findParetoFrontier results, Dominates f r) := by
  constructor
  · intro r hr
    exact (mem_findParetoFrontier_iff.mp hr).2
  · intro r hr hnot
    have hdom : ∃ other ∈ results, Dominates other r := by
      by_contra h
      exact hnot (mem_findParetoFrontier_iff.mpr ⟨hr, h⟩)
    obtain ⟨f, hf, hfnd, hfdom⟩ :=
      exists_undominated_dominator (results.countP (fun o => decide (Dominates o r)))
        results r le_rfl hdom
    exact ⟨f, mem_findParetoFrontier_iff.mpr ⟨hf, hfnd⟩, hfdom⟩

/-- C2 witness: on `[tr1, tr2]` the excluded element `tr1` is dominated by a
frontier member. -/
theorem c2_pareto_sound_complete_witness :
    ∃ f ∈ findParetoFrontier [tr1, tr2], Dominates f tr1 :=
  (c2_pareto_sound_complete [tr1, tr2]).2 tr1 (by decide) (by decide)

/-- C3 (confirmed).  Every liquidate-and-buy scenario the App's scenario
enumeration (`appScenarios`, the generator of App.tsx `allResults`) emits
satisfies the affordability gate: down payment (price times the fraction)
plus 3% closing costs do not exceed the Xiamen net proceeds. -/
theorem c3_affordability_gate [LinearOrderedField α] (xiamen : XiamenProperty α)
    (sdOptions : List (SDPropertyOption α)) (borrowers : List (Borrower α)) (rent : α)
    (s : InvestmentScenario α) (hs : s ∈ appScenarios xiamen sdOptions borrowers rent)
    (hsell : s.sellXiamen = true) :
    ∃ property, s.sdProperty = some property ∧
      property.price * s.downPaymentPercent + property.price * 0.03 ≤
        calculateXiamenNetProceeds xiamen := by
  rcases mem_appScenarios_iff.mp hs with rfl | ⟨p, -, b, -, dp, -, -, hgate, rooms, -, rfl⟩
  · cases hsell
  · exact ⟨p, rfl, hgate⟩

/-- C3 witness: the zero-down scenario over the `p0`/`b0`/`x0` fixtures is
emitted and the gate inequality is produced for it. -/
theorem c3_affordability_gate_witness :
    ∃ property, (comboScenario p0 b0 0 0 (850 : ℚ)).sdProperty = some property ∧
      property.price * (comboScenario p0 b0 0 0 (850 : ℚ)).downPaymentPercent +
        property.price * 0.03 ≤ calculateXiamenNetProceeds x0 := by
  refine c3_affordability_gate x0 [p0] [b0] 850 _ ?_ rfl
  refine mem_appScenarios_iff.mpr (Or.inr ⟨p0, by simp, b0, by simp, 0, ?_, ?_, ?_, 0, ?_, rfl⟩)
  · norm_num [dpOptions]
  · norm_num [getBestLoanOption, b0, va0, List.filter]
  · norm_num [p0, x0, calculateXiamenNetProceeds]
  · norm_num

/-- C4 (counterexample).  With the fixtures `x0` (net proceeds 1000), `p0`
(price 10000) and `b0` (qualifies at every fraction), the 80% down-payment
combination has a qualifying loan product and lies on the documented grid,
yet no emitted scenario carries it: the enumeration also skips on the
affordability gate, which the claim omits. -/
theorem c4_counterexample :
    (getBestLoanOption b0 (0.8 : ℚ)).isSome = true ∧ (0.8 : ℚ) ∈ dpOptions ∧
      ∀ s ∈ appScenarios x0 [p0] [b0] (850 : ℚ), s.downPaymentPercent ≠ 0.8 := by
  refine ⟨?_, ?_, ?_⟩
  · norm_num [getBestLoanOption, b0, va0, List.filter]
  · norm_num [dpOptions]
  · intro s hs
    rcases mem_appScenarios_iff.mp hs with rfl | ⟨p, hp, b, -, dp, -, -, hgate, rooms, -, rfl⟩
    · norm_num [baselineScenario]
    · simp only [List.mem_singleton] at hp
      subst hp
      intro hdp
      rw [show (comboScenario p0 b dp rooms (850 : ℚ)).downPaymentPercent = dp from rfl] at hdp
      subst hdp
      norm_num [p0, x0, calculateXiamenNetProceeds] at hgate

/-- C4 (amended).  The App enumeration emits exactly: one baseline scenario
with the sell flag off, plus one scenario per element of the Cartesian
product candidates x borrowers x the fixed down-payment grid x integer room
counts `0..rooms`, skipping a combination when no loan product qualifies for
the fraction OR when the down payment plus 3% closing costs exceed the Xiamen
net proceeds (the affordability gate the original claim omitted). -/
theorem c4_enumeration [LinearOrderedField α] (xiamen : XiamenProperty α)
    (sdOptions : List (SDPropertyOption α)) (borrowers : List (Borrower α)) (rent : α) :
    (∀ s, s ∈ appScenarios xiamen sdOptions borrowers rent ↔
      s = baselineScenario rent ∨
      ∃ property ∈ sdOptions, ∃ borrower ∈ borrowers, ∃ dp ∈ dpOptions,
        (getBestLoanOption borrower dp).isSome = true ∧
        property.price * dp + property.price * 0.03 ≤ calculateXiamenNetProceeds xiamen ∧
        ∃ rooms ≤ property.rooms, s = comboScenario property borrower dp rooms rent) ∧
    (appScenarios xiamen sdOptions borrowers rent).countP
      (fun s => decide (s.sellXiamen = false)) = 1 := by
  refine ⟨fun _ => mem_appScenarios_iff, ?_⟩
  unfold appScenarios
  rw [List.countP_cons]
  have hzero : (sdOptions.flatMap fun property =>
      borrowers.flatMap fun borrower =>
        dpOptions.flatMap fun dp =>
          comboList property borrower dp rent (calculateXiamenNetProceeds xiamen)).countP
      (fun s => decide (s.sellXiamen = false)) = 0 := by
    rw [List.countP_eq_zero]
    intro s hs
    simp only [List.mem_flatMap] at hs
    obtain ⟨p, -, b, -, dp, -, hmem⟩ := hs
    simp only [decide_eq_true_eq]
    rw [comboList_sellXiamen hmem]
    simp
  rw [hzero]
  rfl

/-- C4 witness: on the fixtures, the baseline scenario is recognized by the
characterization. -/
theorem c4_enumeration_witness :
    baselineScenario (850 : ℚ) ∈ appScenarios x0 [p0] [b0] 850 :=
  ((c4_enumeration x0 [p0] [b0] 850).1 _).mpr (Or.inl rfl)

/-- C7 (confirmed).  Loan selection returns `none` exactly when no product
meets the down-payment requirement; a returned product always comes from the
borrower's list, requires no more than the requested fraction, has the lowest
rate among qualifying products, and is the first-encountered product with
that rate (every earlier qualifying product has a strictly greater rate). -/
theorem c7_best_loan [LinearOrder α] (borrower : Borrower α) (dp : α) :
    (getBestLoanOption borrower dp = none ↔
      ∀ opt ∈ borrower.loanOptions, ¬ opt.minDownPayment ≤ dp) ∧
    (∀ lo, getBestLoanOption borrower dp = some lo →
      lo ∈ borrower.loanOptions ∧ lo.minDownPayment ≤ dp ∧
      (∀ opt ∈ borrower.loanOptions, opt.minDownPayment ≤ dp →
        lo.interestRate ≤ opt.interestRate) ∧
      ∃ l1 l2,
        borrower.loanOptions.filter (fun opt => decide (dp ≥ opt.minDownPayment)) =
          l1 ++ lo :: l2 ∧
        (∀ o ∈ l1, lo.interestRate < o.interestRate) ∧
        (∀ o ∈ l2, lo.interestRate ≤ o.interestRate)) := by
  have hq : ∀ opt : LoanOption α,
      opt ∈ borrower.loanOptions.filter (fun opt => decide (dp ≥ opt.minDownPayment)) ↔
        opt ∈ borrower.loanOptions ∧ opt.minDownPayment ≤ dp := by
    intro opt
    rw [List.mem_filter, decide_eq_true_eq]
  rcases hv : borrower.loanOptions.filter (fun opt => decide (dp ≥ opt.minDownPayment))
    with - | ⟨h, t⟩
  · have hnone : getBestLoanOption borrower dp = none := by
      simp only [getBestLoanOption]
      rw [hv]
    constructor
    · rw [hnone]
      constructor
      · intro _ opt hopt hle
        have hin := (hq opt).mpr ⟨hopt, hle⟩
        rw [hv] at hin
        cases hin
      · intro _
        rfl
    · intro lo hlo
      rw [hnone] at hlo
      cases hlo
  · have hsome : getBestLoanOption borrower dp =
        some (t.foldl (fun best current =>
          if current.interestRate < best.interestRate then current else best) h) := by
      simp only [getBestLoanOption]
      rw [hv]
    constructor
    · rw [hsome]
      constructor
      · intro hcontra
        cases hcontra
      · intro hall
        exfalso
        have hh : h ∈ h :: t := List.mem_cons_self h t
        rw [← hv] at hh
        obtain ⟨hmem, hle⟩ := (hq h).mp hh
        exact hall h hmem hle
    · intro lo hlo
      rw [hsome] at hlo
      injection hlo with hlo
      obtain ⟨l1, l2, hdec, h1, h2⟩ := foldl_min_first t h lo hlo.symm
      have hfilter : borrower.loanOptions.filter
          (fun opt => decide (dp ≥ opt.minDownPayment)) = l1 ++ lo :: l2 := hv.trans hdec
      have hlomem : lo ∈ borrower.loanOptions.filter
          (fun opt => decide (dp ≥ opt.minDownPayment)) := by
        rw [hfilter]
        exact List.mem_append.mpr (Or.inr (List.mem_cons_self _ _))
      obtain ⟨hmem, hle⟩ := (hq lo).mp hlomem
      refine ⟨hmem, hle, ?_, l1, l2, hfilter, h1, h2⟩
      intro opt hopt hople
      have hin := (hq opt).mpr ⟨hopt, hople⟩
      rw [hfilter] at hin
      rcases List.mem_append.mp hin with hm | hm
      · exact le_of_lt (h1 opt hm)
      · rcases List.mem_cons.mp hm with rfl | hm
        · exact le_refl _
        · exact h2 opt hm

/-- C7 witness: on the integer fixture `b2` with fraction 3 the selector
returns the VA product, which qualifies and carries the minimal rate. -/
theorem c7_best_loan_witness :
    getBestLoanOption b2 (3 : ℤ) = some vaZ ∧ vaZ.minDownPayment ≤ 3 ∧
      ∀ opt ∈ b2.loanOptions, opt.minDownPayment ≤ 3 →
        vaZ.interestRate ≤ opt.interestRate := by
  have heq : getBestLoanOption b2 (3 : ℤ) = some vaZ := by decide
  obtain ⟨-, hle, hmin, -⟩ := (c7_best_loan b2 (3 : ℤ)).2 vaZ heq
  exact ⟨heq, hle, hmin⟩

/-- C5 (confirmed).  When the scenario has no borrower, or loan selection
finds no qualifying product, the evaluator's loan terms fall back to the 6.5%
default rate with zero insurance premium; when a product is selected, its
rate is used and its premium applies exactly when the product specifies one
and the fraction is below 0.20.  The third conjunct ties the terms to the
evaluator: the buy branch prices the mortgage at the selected rate. -/
theorem c5_loan_fallback (s : InvestmentScenario ℝ) :
    ((s.borrower = none ∨
        ∃ b, s.borrower = some b ∧ getBestLoanOption b s.downPaymentPercent = none) →
      scenarioLoanTerms s = (0.065, 0)) ∧
    (∀ b lo, s.borrower = some b →
      getBestLoanOption b s.downPaymentPercent = some lo →
      scenarioLoanTerms s =
        (lo.interestRate,
          if lo.pmi.isSome ∧ s.downPaymentPercent < 0.2 then lo.pmi.getD 0 else 0)) ∧
    (∀ property xiamen years, s.sellXiamen = true → s.sdProperty = some property →
      (calculateScenario s xiamen years).monthlyMortgage =
        calculateMonthlyMortgage (property.price - property.price * s.downPaymentPercent)
          (scenarioLoanTerms s).1) := by
  refine ⟨?_, ?_, ?_⟩
  · rintro (hb | ⟨b, hb, hl⟩)
    · unfold scenarioLoanTerms
      rw [hb]
    · unfold scenarioLoanTerms
      rw [hb]
      dsimp only
      rw [hl]
  · intro b lo hb hl
    unfold scenarioLoanTerms
    rw [hb]
    dsimp only
    rw [hl]
    rcases hpmi : lo.pmi with - | p
    · simp [hpmi]
    · by_cases hp : p = 0
      · subst hp
        by_cases hdp : s.downPaymentPercent < 0.2 <;> simp [hpmi, hdp]
      · by_cases hdp : s.downPaymentPercent < 0.2 <;> simp [hpmi, hdp, hp]
  · intro property xiamen years hsell hprop
    obtain ⟨sell, sdp, dpp, bor, rooms, rent⟩ := s
    cases sell
    · cases hsell
    · cases sdp
      · cases hprop
      · injection hprop with hprop
        subst hprop
        rfl

/-- C5 witness: the baseline fixture (no borrower) gets the 6.5% fallback;
the `s1` fixture selects `conv1` at 25% down, so no premium applies. -/
theorem c5_loan_fallback_witness :
    scenarioLoanTerms (baselineScenario (850 : ℝ)) = (0.065, 0) ∧
      scenarioLoanTerms s1 = (conv1.interestRate, 0) := by
  constructor
  · exact (c5_loan_fallback (baselineScenario (850 : ℝ))).1 (Or.inl rfl)
  · have hbest : getBestLoanOption b1 (0.25 : ℝ) = some conv1 := by
      norm_num [getBestLoanOption, b1, conv1, List.filter]
    have h2 := (c5_loan_fallback s1).2.1 b1 conv1 rfl hbest
    rw [h2]
    norm_num [s1, comboScenario]

/-- C6 (confirmed).  In the liquidate-and-buy branch the monthly effective
cashflow exceeds the monthly actual cashflow by exactly the monthly imputed
rent. -/
theorem c6_imputed_rent (s : InvestmentScenario ℝ) (xiamen : XiamenProperty ℝ)
    (years : ℝ) (property : SDPropertyOption ℝ) (hsell : s.sellXiamen = true)
    (hprop : s.sdProperty = some property) :
    (calculateScenario s xiamen years).monthlyEffectiveCashflow -
        (calculateScenario s xiamen years).monthlyCashflow =
      (calculateScenario s xiamen years).monthlyImputedRent := by
  obtain ⟨sell, sdp, dpp, bor, rooms, rent⟩ := s
  cases sell
  · cases hsell
  · cases sdp with
    | none => cases hprop
    | some p =>
        injection hprop with hprop
        subst hprop
        show (liquidateAndBuyResult _ p xiamen years).monthlyEffectiveCashflow -
            (liquidateAndBuyResult _ p xiamen years).monthlyCashflow =
          (liquidateAndBuyResult _ p xiamen years).monthlyImputedRent
        simp only [liquidateAndBuyResult]
        ring

/-- C6 witness: the relation at the concrete scenario `s1`. -/
theorem c6_imputed_rent_witness :
    (calculateScenario s1 x1 5).monthlyEffectiveCashflow -
        (calculateScenario s1 x1 5).monthlyCashflow =
      (calculateScenario s1 x1 5).monthlyImputedRent :=
  c6_imputed_rent s1 x1 5 p1 rfl rfl

/-- C8 (confirmed).  The zero-rate branch returns the linear payment and the
positive-rate branch returns exactly the closed-form annuity formula with
monthly rate `annualRate/12` over `years*12` payments. -/
theorem c8_monthly_payment (principal annualRate years : ℝ) (_hyears : 0 < years) :
    (annualRate = 0 →
      calculateMonthlyMortgage principal annualRate years = principal / (years * 12)) ∧
    (0 < annualRate →
      calculateMonthlyMortgage principal annualRate years =
        principal * (annualRate / 12 * (1 + annualRate / 12) ^ (years * 12)) /
          ((1 + annualRate / 12) ^ (years * 12) - 1)) := by
  constructor
  · rintro rfl
    unfold calculateMonthlyMortgage
    rw [if_pos (by norm_num)]
  · intro hr
    unfold calculateMonthlyMortgage
    rw [if_neg (div_ne_zero (ne_of_gt hr) (by norm_num))]

/-- C8 witness: the zero-rate formula at principal 1200 over 30 years. -/
theorem c8_monthly_payment_witness :
    calculateMonthlyMortgage 1200 0 30 = 1200 / (30 * 12) :=
  (c8_monthly_payment 1200 0 30 (by norm_num)).1 rfl

/-- C9 (confirmed).  In the liquidate-and-buy branch the annualized ROI
compounds the net-worth ratio: it equals
`((terminal net worth / net proceeds) ^ (1/years) - 1) * 100`, where the
terminal net worth is terminal equity plus leftover cash plus the annual
effective cashflow accumulated over the horizon. -/
theorem c9_annualized_roi (s : InvestmentScenario ℝ) (xiamen : XiamenProperty ℝ)
    (years : ℝ) (property : SDPropertyOption ℝ) (hsell : s.sellXiamen = true)
    (hprop : s.sdProperty = some property) (_hyears : 0 < years) :
    (calculateScenario s xiamen years).year5AnnualizedROI =
      ((((calculateScenario s xiamen years).year5Equity +
          (calculateScenario s xiamen years).remainingCash +
          (calculateScenario s xiamen years).annualEffectiveCashflow * years) /
            calculateXiamenNetProceeds xiamen) ^ (1 / years) - 1) * 100 := by
  obtain ⟨sell, sdp, dpp, bor, rooms, rent⟩ := s
  cases sell
  · cases hsell
  · cases sdp
    · cases hprop
    · injection hprop with hprop
      subst hprop
      rfl

/-- C9 witness: the formula at the concrete scenario `s1` with a five-year
horizon. -/
theorem c9_annualized_roi_witness :
    (calculateScenario s1 x1 5).year5AnnualizedROI =
      ((((calculateScenario s1 x1 5).year5Equity +
          (calculateScenario s1 x1 5).remainingCash +
          (calculateScenario s1 x1 5).annualEffectiveCashflow * 5) /
            calculateXiamenNetProceeds x1) ^ ((1 : ℝ) / 5) - 1) * 100 :=
  c9_annualized_roi s1 x1 5 p1 rfl rfl (by norm_num)

/-- C10 (confirmed).  The evaluator is total and never enters the buy branch
when no candidate property is attached: even with the sell flag raised it
returns the hold-and-rent result, whose down payment, mortgage, imputed rent
and DTI are all zero. -/
theorem c10_null_property_total (s : InvestmentScenario ℝ) (xiamen : XiamenProperty ℝ)
    (years : ℝ) (hprop : s.sdProperty = none) :
    calculateScenario s xiamen years = holdAndRentResult s xiamen years ∧
    (calculateScenario s xiamen years).downPayment = 0 ∧
    (calculateScenario s xiamen years).monthlyMortgage = 0 ∧
    (calculateScenario s xiamen years).monthlyImputedRent = 0 ∧
    (calculateScenario s xiamen years).dti = 0 := by
  obtain ⟨sell, sdp, dpp, bor, rooms, rent⟩ := s
  cases sdp
  · cases sell
    · exact ⟨rfl, rfl, rfl, rfl, rfl⟩
    · exact ⟨rfl, rfl, rfl, rfl, rfl⟩
  · cases hprop

/-- C10 witness: the invariant-violating fixture `sBad` (sell flag raised,
no property) lands in the hold-and-rent branch with the four zero fields. -/
theorem c10_null_property_total_witness :
    calculateScenario sBad x1 5 = holdAndRentResult sBad x1 5 ∧
    (calculateScenario sBad x1 5).downPayment = 0 ∧
    (calculateScenario sBad x1 5).monthlyMortgage = 0 ∧
    (calculateScenario sBad x1 5).monthlyImputedRent = 0 ∧
    (calculateScenario sBad x1 5).dti = 0 :=
  c10_null_property_total sBad x1 5 rfl

end Claims

end Housing
